import Mathlib

/-!
Shallow embedding of the plugin version-resolution and download-selection
logic of the repository service (src/pkg/plugins/repository/service.go),
together with theorems settling the specification claims about it.

Modelling conventions:
* Go strings are Lean strings (all the relevant data is ASCII).
* A Go map from string keys is an association list with unique keys; map
  lookup is first-match lookup, and nil versus empty map is `Option`:
  `none` is the nil map, `some []` the present-but-empty map.
* The running system platform identifier produced by `osAndArchString()`
  (defined outside the provided source) is passed in as an explicit
  `current : String` argument.
* The `SystemInfo` value carried by errors is built outside the provided
  source; modelled from the spec as the pair of the Grafana version and the
  platform identifier, which is all the resolver hands to it.
* The debug log calls (`s.log.Debugf`) are modelled by returning the list
  of rendered log lines alongside the result.
-/

deriving instance DecidableEq for Except

namespace PluginRepo

/-- Checksum record for one platform of one plugin version
(the `ArchMeta` struct; only its `SHA256` field is used here). -/
structure ArchMeta where
  SHA256 : String
deriving DecidableEq, Repr

/-- One published plugin version (`Version` struct): a version string and an
optional map from platform key to checksum metadata (`Arch`, a Go map that
may be nil, modelled as `Option` of an association list). -/
structure Version where
  version : String
  arch : Option (List (String × ArchMeta))
deriving DecidableEq, Repr

/-- A plugin descriptor (`Plugin` struct): id and its list of versions,
expected to be sorted newest first. -/
structure Plugin where
  id : String
  versions : List Version
deriving DecidableEq, Repr

/-- Modelled from the spec: the system information carried by resolution
errors. Its rendering function lives outside the provided source; the
resolver hands it the Grafana version, and the platform identifies the
system, so it is modelled as that pair of strings. -/
structure SysInfo where
  grafanaVersion : String
  platform : String
deriving DecidableEq, Repr

/-- The two resolution errors constructed by `selectVersion`:
`ErrVersionNotFound` and `ErrVersionUnsupported`, each carrying the
plugin id, the (normalized) requested version, and system information. -/
inductive RepoError where
  | versionNotFound (pluginID requestedVersion : String) (systemInfo : SysInfo)
  | versionUnsupported (pluginID requestedVersion : String) (systemInfo : SysInfo)
deriving DecidableEq, Repr

/-- Resolver output (`PluginDownloadOptions` struct). -/
structure PluginDownloadOptions where
  version : String
  checksum : String
  pluginZipURL : String
deriving DecidableEq, Repr

/-- The compile-time constant `grafanaComAPIRoot`. -/
def grafanaComAPIRoot : String := "https://grafana.com/api/plugins"

/-- The repository service (`Service` struct); of its fields only the
configured repository URL matters to the modelled logic. -/
structure Service where
  repoURL : String
deriving DecidableEq, Repr

/-- Go `version.Arch == nil { return true }` followed by a loop over the
map keys returning true when a key equals the current platform string or
`"any"` (`supportsCurrentArch`). -/
def supportsCurrentArch (v : Version) (current : String) : Bool :=
  match v.arch with
  | none => true
  | some archMap => archMap.any (fun kv => kv.1 == current || kv.1 == "any")

/-- Scan `plugin.Versions` in order and return the first entry supported on
the current platform (`latestSupportedVersion`). -/
def latestSupportedVersion (plugin : Plugin) (current : String) : Option Version :=
  plugin.versions.find? (fun v => supportsCurrentArch v current)

/-- `normalizeVersion`: remove every space character
(Go `strings.ReplaceAll(version, " ", "")` replaces exactly the character
`" "`), then drop a single leading `^` or `v` when present
(Go `strings.HasPrefix` checks followed by `normalized[1:]`). -/
def normalizeVersion (version : String) : String :=
  match version.data.filter (fun c => c != ' ') with
  | '^' :: rest => ⟨rest⟩
  | 'v' :: rest => ⟨rest⟩
  | l => ⟨l⟩

/-- Go map lookup on the association-list model of `version.Arch`. -/
def archLookup (archMap : List (String × ArchMeta)) (k : String) : Option ArchMeta :=
  (archMap.find? (fun kv => kv.1 == k)).map (fun kv => kv.2)

/-- `selectVersion` together with the debug log lines it emits.
Mirrors the Go control flow: normalize the requested version, fail with
`ErrVersionUnsupported` when no version at all is supported, return the
latest supported version when no specific version was requested, otherwise
linearly search for an exact string match; a missing match is
`ErrVersionNotFound`, an unsupported match is `ErrVersionUnsupported`,
in both cases logging the fallback version at debug level. -/
def selectVersionWithLog (plugin : Plugin) (version grafanaVersion current : String) :
    Except RepoError Version × List String :=
  let version := normalizeVersion version
  match latestSupportedVersion plugin current with
  | none =>
      (Except.error (RepoError.versionUnsupported plugin.id version
        ⟨grafanaVersion, current⟩), [])
  | some latestForArch =>
      if version = "" then
        (Except.ok latestForArch, [])
      else
        match plugin.versions.find? (fun v => v.version == version) with
        | none =>
            (Except.error (RepoError.versionNotFound plugin.id version
              ⟨grafanaVersion, current⟩),
             ["Requested plugin version " ++ plugin.id ++ " v" ++ version ++
              " not found but potential fallback version \x27" ++
              latestForArch.version ++ "\x27 was found"])
        | some ver =>
            if supportsCurrentArch ver current then
              (Except.ok ver, [])
            else
              (Except.error (RepoError.versionUnsupported plugin.id version
                ⟨grafanaVersion, current⟩),
               ["Requested plugin version " ++ plugin.id ++ " v" ++ version ++
                " is not supported on your system but potential fallback version \x27" ++
                latestForArch.version ++ "\x27 was found"])

/-- `selectVersion`: the resolution result, discarding the debug log. -/
def selectVersion (plugin : Plugin) (version grafanaVersion current : String) :
    Except RepoError Version :=
  (selectVersionWithLog plugin version grafanaVersion current).1

/-- The checksum selection inside `GetDownloadOptions`: nil map gives the
empty checksum; otherwise look up the current platform, falling back to the
`"any"` entry, whose absence leaves the zero `ArchMeta` value (empty
`SHA256`). -/
def selectChecksum (v : Version) (current : String) : String :=
  match v.arch with
  | none => ""
  | some archMap =>
      let archMeta :=
        match archLookup archMap current with
        | some m => m
        | none => (archLookup archMap "any").getD ⟨""⟩
      archMeta.SHA256

/-- The success path of `GetDownloadOptions` applied to a resolved version:
chosen version string, selected checksum, and the archive URL rendered by
`fmt.Sprintf` from the constant root, the plugin id and the version. -/
def buildDownloadOptions (v : Version) (pluginID current : String) :
    PluginDownloadOptions :=
  { version := v.version
    checksum := selectChecksum v current
    pluginZipURL := grafanaComAPIRoot ++ "/" ++ pluginID ++ "/versions/" ++
      v.version ++ "/download" }

/-- `GetDownloadOptions` after the metadata fetch: resolve the version, then
build the download options; the service configuration plays no part here. -/
def Service.getDownloadOptions (_ : Service) (plugin : Plugin)
    (pluginID version grafanaVersion current : String) :
    Except RepoError PluginDownloadOptions :=
  (selectVersion plugin version grafanaVersion current).map
    (fun v => buildDownloadOptions v pluginID current)

/-- The URL `pluginMetadata` sends its request to: the configured repository
URL with `repo/<pluginID>` joined onto its path (Go `url.Parse` then
`path.Join(u.Path, "repo", pluginID)`; for a well-formed base URL without a
trailing slash this is plain concatenation). -/
def Service.metadataURL (s : Service) (pluginID : String) : String :=
  s.repoURL ++ "/repo/" ++ pluginID

/-- Checksum selection as the spec words it, for comparison with the
implementation path `selectChecksum`: the checksum recorded for the current
platform if present, otherwise the one recorded under the `"any"` key if
present, otherwise the empty string. -/
def checksumSpec (v : Version) (current : String) : String :=
  match v.arch with
  | none => ""
  | some archMap =>
      match archLookup archMap current with
      | some m => m.SHA256
      | none =>
          match archLookup archMap "any" with
          | some m => m.SHA256
          | none => ""

/-- Host component of a URL string, following the scheme detection of Go
`url.Parse`: the scheme runs up to the first colon, which must be followed
by two slashes, and the host is the text from there up to the next slash. -/
def urlHost (u : String) : String :=
  match u.data.dropWhile (fun c => c != ':') with
  | ':' :: '/' :: '/' :: rest => ⟨rest.takeWhile (fun c => c != '/')⟩
  | _ => ""

/-! Concrete fixtures used by witnesses and counterexamples. -/

/-- The worked example catalog of the spec: newest entry only for `winX64`,
older entries platform independent. -/
def plugSpecEx : Plugin :=
  ⟨"plug", [⟨"3.0", some [("winX64", ⟨"c3"⟩)]⟩,
            ⟨"2.0", some [("any", ⟨"c2"⟩)]⟩,
            ⟨"1.0", some [("any", ⟨"c1"⟩)]⟩]⟩

/-- A catalog with a single platform-independent version `2.0`. -/
def plugOne : Plugin := ⟨"plug", [⟨"2.0", some [("any", ⟨"c2"⟩)]⟩]⟩

/-- A catalog with a single platform-independent version `3.0`; same plugin
id as `plugOne` but a different latest supported version. -/
def plugOther : Plugin := ⟨"plug", [⟨"3.0", some [("any", ⟨"c3"⟩)]⟩]⟩

/-- A catalog whose newest version is restricted to `winX64`, with a
platform-independent older fallback. -/
def plugWin : Plugin :=
  ⟨"plug", [⟨"2.0", some [("winX64", ⟨"cw"⟩)]⟩,
            ⟨"1.0", some [("any", ⟨"c1"⟩)]⟩]⟩

/-- A catalog whose only version has a present-but-empty platform map. -/
def plugEmptyArch : Plugin := ⟨"plug", [⟨"1.0", some []⟩]⟩

/-- The empty catalog. -/
def plugEmpty : Plugin := ⟨"plug", []⟩

/-! Helper lemmas shared by the claim theorems. -/

theorem find?_eq_of_firstIdx {α : Type} (p : α → Bool) :
    ∀ (l : List α) (i : Nat) (hi : i < l.length),
      p (l.get ⟨i, hi⟩) = true →
      (∀ j (hj : j < l.length), j < i → p (l.get ⟨j, hj⟩) = false) →
      l.find? p = some (l.get ⟨i, hi⟩)
  | [], i, hi, _, _ => absurd hi (by simp)
  | a :: l, 0, _, hp, _ => List.find?_cons_of_pos l hp
  | a :: l, i + 1, hi, hp, hfirst => by
      have ha : p a = false := hfirst 0 (by simp) (Nat.succ_pos i)
      rw [List.find?_cons_of_neg l (by simp [ha])]
      exact find?_eq_of_firstIdx p l i (Nat.lt_of_succ_lt_succ hi) hp
        (fun j hj hji => hfirst (j + 1) (by simpa using hj) (Nat.succ_lt_succ hji))

theorem latestSupportedVersion_eq_none (p : Plugin) (current : String)
    (h : ∀ v ∈ p.versions, supportsCurrentArch v current = false) :
    latestSupportedVersion p current = none :=
  List.find?_eq_none.mpr (fun v hv => by simp [h v hv])

theorem selectVersion_err_of_latest_none (p : Plugin)
    (req grafanaVersion current : String)
    (h : latestSupportedVersion p current = none) :
    selectVersion p req grafanaVersion current =
      Except.error (RepoError.versionUnsupported p.id (normalizeVersion req)
        ⟨grafanaVersion, current⟩) := by
  simp [selectVersion, selectVersionWithLog, h]

theorem selectVersion_norm_congr (p : Plugin) (a b grafanaVersion current : String)
    (h : normalizeVersion a = normalizeVersion b) :
    selectVersion p a grafanaVersion current =
      selectVersion p b grafanaVersion current := by
  unfold selectVersion selectVersionWithLog
  rw [h]

theorem urlHost_root_append (suffix : String) :
    urlHost (grafanaComAPIRoot ++ suffix) = "grafana.com" := by
  unfold urlHost
  rw [show (grafanaComAPIRoot ++ suffix).data = grafanaComAPIRoot.data ++ suffix.data
        from rfl]
  rw [List.dropWhile_append]
  rw [show (grafanaComAPIRoot.data.dropWhile (fun c => c != ':'))
        = ':' :: '/' :: '/' :: ("grafana.com/api/plugins".data) from by decide]
  rw [if_neg (by decide)]
  show (⟨("grafana.com/api/plugins".data ++ suffix.data).takeWhile
    (fun c => c != '/')⟩ : String) = "grafana.com"
  rw [List.takeWhile_append]
  rw [if_neg (by decide)]
  decide

theorem urlHost_append_of_scheme (base suffix : String) (rest : List Char)
    (hbase : base.data.dropWhile (fun c => c != ':') = ':' :: '/' :: '/' :: rest)
    (hsuffix : suffix.data.head? = some '/') :
    urlHost (base ++ suffix) = urlHost base := by
  obtain ⟨t, hs⟩ : ∃ t, suffix.data = '/' :: t := by
    cases h : suffix.data with
    | nil => rw [h] at hsuffix; cases hsuffix
    | cons a t =>
        rw [h] at hsuffix
        simp at hsuffix
        exact ⟨t, by rw [hsuffix]⟩
  unfold urlHost
  rw [show (base ++ suffix).data = base.data ++ suffix.data from rfl]
  rw [List.dropWhile_append, hbase]
  rw [if_neg (by simp)]
  show (⟨(rest ++ suffix.data).takeWhile (fun c => c != '/')⟩ : String)
      = ⟨rest.takeWhile (fun c => c != '/')⟩
  rw [hs, List.takeWhile_append]
  by_cases hlen : (rest.takeWhile (fun c => c != '/')).length = rest.length
  · rw [if_pos hlen]
    rw [show (('/' :: t).takeWhile (fun c => c != '/')) = [] from rfl]
    rw [List.append_nil]
    rw [(List.takeWhile_prefix _).eq_of_length hlen]
  · rw [if_neg hlen]

/-! The claim theorems. -/

/-- Claim C1: for every catalog with at least one entry supported on the
current platform, resolving with a requested version that is empty after
normalization returns the first entry in list order that passes the
platform support check, and never any later entry. -/
theorem selectVersion_empty_req_first_supported
    (p : Plugin) (req grafanaVersion current : String) (i : Nat)
    (hi : i < p.versions.length)
    (hsupp : supportsCurrentArch (p.versions.get ⟨i, hi⟩) current = true)
    (hfirst : ∀ j (hj : j < p.versions.length), j < i →
      supportsCurrentArch (p.versions.get ⟨j, hj⟩) current = false)
    (hreq : normalizeVersion req = "") :
    selectVersion p req grafanaVersion current =
      Except.ok (p.versions.get ⟨i, hi⟩) := by
  have hlatest : latestSupportedVersion p current = some (p.versions.get ⟨i, hi⟩) :=
    find?_eq_of_firstIdx _ _ i hi hsupp hfirst
  simp [selectVersion, selectVersionWithLog, hreq, hlatest]

/-- Witness for C1 on the worked example of the spec: on `linuxAmd64`, the
newest entry `3.0` is restricted to `winX64` and is skipped, and the next
entry `2.0` is returned. -/
theorem selectVersion_empty_req_first_supported_witness :
    selectVersion plugSpecEx "" "8.0" "linuxAmd64" =
      Except.ok ⟨"2.0", some [("any", ⟨"c2"⟩)]⟩ :=
  selectVersion_empty_req_first_supported plugSpecEx "" "8.0" "linuxAmd64" 1
    (by decide) (by decide) (by decide) (by decide)

/-- Claim C2: with at least one supported entry present, a non-empty
normalized requested version matching no entry by string equality fails
with `VersionNotFound` carrying the plugin id, the normalized requested
version and the system info; the fallback is not substituted. -/
theorem selectVersion_notFound_when_absent
    (p : Plugin) (req grafanaVersion current : String) (f : Version)
    (hlatest : latestSupportedVersion p current = some f)
    (hne : normalizeVersion req ≠ "")
    (habsent : ∀ v ∈ p.versions, v.version ≠ normalizeVersion req) :
    selectVersion p req grafanaVersion current =
      Except.error (RepoError.versionNotFound p.id (normalizeVersion req)
        ⟨grafanaVersion, current⟩) := by
  have hfind : p.versions.find? (fun v => v.version == normalizeVersion req) = none :=
    List.find?_eq_none.mpr (fun v hv => by simp [habsent v hv])
  simp [selectVersion, selectVersionWithLog, hlatest, hne, hfind]

/-- Witness for C2: requesting `9.9.9` against a supported catalog holding
only `2.0` fails with `VersionNotFound`. -/
theorem selectVersion_notFound_when_absent_witness :
    selectVersion plugOne "9.9.9" "8.0" "linuxAmd64" =
      Except.error (RepoError.versionNotFound "plug" "9.9.9"
        ⟨"8.0", "linuxAmd64"⟩) :=
  selectVersion_notFound_when_absent plugOne "9.9.9" "8.0" "linuxAmd64"
    ⟨"2.0", some [("any", ⟨"c2"⟩)]⟩ (by decide) (by decide) (by decide)

/-- Claim C3: with at least one supported entry present, a non-empty
normalized requested version whose first matching entry carries a present
platform map containing neither the current platform key nor the `any` key
fails with `VersionUnsupported`, not with the entry or the fallback. -/
theorem selectVersion_unsupported_match
    (p : Plugin) (req grafanaVersion current : String) (f e : Version)
    (archMap : List (String × ArchMeta))
    (hlatest : latestSupportedVersion p current = some f)
    (hne : normalizeVersion req ≠ "")
    (hfound : p.versions.find? (fun v => v.version == normalizeVersion req) = some e)
    (harch : e.arch = some archMap)
    (hkeys : ∀ kv ∈ archMap, kv.1 ≠ current ∧ kv.1 ≠ "any") :
    selectVersion p req grafanaVersion current =
      Except.error (RepoError.versionUnsupported p.id (normalizeVersion req)
        ⟨grafanaVersion, current⟩) := by
  have hsupp : supportsCurrentArch e current = false := by
    obtain ⟨ev, earch⟩ := e
    cases harch
    show archMap.any (fun kv => kv.1 == current || kv.1 == "any") = false
    rw [List.any_eq_false]
    intro kv hkv
    simp [(hkeys kv hkv).1, (hkeys kv hkv).2]
  simp [selectVersion, selectVersionWithLog, hlatest, hne, hfound, hsupp]

/-- Witness for C3: requesting `2.0` on `linuxAmd64` when that entry only
lists a `winX64` checksum fails with `VersionUnsupported`, even though the
fallback `1.0` is supported. -/
theorem selectVersion_unsupported_match_witness :
    selectVersion plugWin "2.0" "8.0" "linuxAmd64" =
      Except.error (RepoError.versionUnsupported "plug" "2.0"
        ⟨"8.0", "linuxAmd64"⟩) :=
  selectVersion_unsupported_match plugWin "2.0" "8.0" "linuxAmd64"
    ⟨"1.0", some [("any", ⟨"c1"⟩)]⟩ ⟨"2.0", some [("winX64", ⟨"cw"⟩)]⟩
    [("winX64", ⟨"cw"⟩)] (by decide) (by decide) (by decide) (by decide) (by decide)

/-- Claim C4: when no entry at all is supported on the current platform —
the empty catalog included — resolution fails with `VersionUnsupported` for
every requested version string, never with `VersionNotFound`. -/
theorem selectVersion_unsupported_when_none_supported
    (p : Plugin) (current : String)
    (h : ∀ v ∈ p.versions, supportsCurrentArch v current = false)
    (req grafanaVersion : String) :
    selectVersion p req grafanaVersion current =
      Except.error (RepoError.versionUnsupported p.id (normalizeVersion req)
        ⟨grafanaVersion, current⟩) :=
  selectVersion_err_of_latest_none p req grafanaVersion current
    (latestSupportedVersion_eq_none p current h)

/-- Witness for C4: the empty catalog with the nonexistent requested
version `9.9.9` fails with `VersionUnsupported`, not `VersionNotFound`. -/
theorem selectVersion_unsupported_when_none_supported_witness :
    selectVersion plugEmpty "9.9.9" "8.0" "linuxAmd64" =
      Except.error (RepoError.versionUnsupported "plug" "9.9.9"
        ⟨"8.0", "linuxAmd64"⟩) :=
  selectVersion_unsupported_when_none_supported plugEmpty "linuxAmd64"
    (by decide) "9.9.9" "8.0"

/-- Claim C5, counterexample: normalization does not remove all whitespace,
only space characters. `"2.0"` with an embedded tab keeps the tab, so
resolving it against a catalog entry `"2.0"` does not give the same result
as resolving `"2.0"`. -/
theorem normalizeVersion_whitespace_cex :
    normalizeVersion "2.\t0" = "2.\t0" ∧
    selectVersion plugOne "2.\t0" "8.0" "linuxAmd64" ≠
      selectVersion plugOne "2.0" "8.0" "linuxAmd64" := by
  decide

/-- Claim C5 as amended: normalization removes all space characters
(not all whitespace) and then drops exactly one leading `^` or `v`, so
requesting `^2.0`, `v2.0`, `2.0`, or the same with embedded spaces, yields
identical resolution results. -/
theorem normalizeVersion_spaces_and_one_prefix :
    (∀ s : String, (normalizeVersion s).data.all (fun c => c != ' ') = true) ∧
    (∀ (p : Plugin) (grafanaVersion current : String),
       selectVersion p "^2.0" grafanaVersion current =
         selectVersion p "2.0" grafanaVersion current ∧
       selectVersion p "v2.0" grafanaVersion current =
         selectVersion p "2.0" grafanaVersion current ∧
       selectVersion p " 2 . 0 " grafanaVersion current =
         selectVersion p "2.0" grafanaVersion current ∧
       selectVersion p "v 2.0" grafanaVersion current =
         selectVersion p "2.0" grafanaVersion current) ∧
    normalizeVersion "^v2.0" = "v2.0" := by
  refine ⟨?_, ?_, by decide⟩
  · intro s
    unfold normalizeVersion
    split
    · next rest heq =>
        show rest.all (fun c => c != ' ') = true
        rw [List.all_eq_true]
        intro c hc
        have hm : c ∈ s.data.filter (fun c => c != ' ') := by
          rw [heq]; exact List.mem_cons_of_mem _ hc
        have hp := (List.mem_filter.mp hm).2
        exact hp
    · next rest heq =>
        show rest.all (fun c => c != ' ') = true
        rw [List.all_eq_true]
        intro c hc
        have hm : c ∈ s.data.filter (fun c => c != ' ') := by
          rw [heq]; exact List.mem_cons_of_mem _ hc
        have hp := (List.mem_filter.mp hm).2
        exact hp
    · show ((s.data.filter (fun c => c != ' ')).all (fun c => c != ' ')) = true
      rw [List.all_eq_true]
      intro c hc
      have hp := (List.mem_filter.mp hc).2
      exact hp
  · intro p grafanaVersion current
    exact ⟨selectVersion_norm_congr p _ _ grafanaVersion current (by decide),
           selectVersion_norm_congr p _ _ grafanaVersion current (by decide),
           selectVersion_norm_congr p _ _ grafanaVersion current (by decide),
           selectVersion_norm_congr p _ _ grafanaVersion current (by decide)⟩

/-- Claim C6: building the download options is total, and the checksum it
selects is exactly the one the spec describes: the current platform entry
if present, else the `any` entry if present, else empty — the nil platform
map in particular giving the empty checksum. -/
theorem buildDownloadOptions_checksum_as_spec (v : Version) (pluginID current : String) :
    (buildDownloadOptions v pluginID current).checksum = checksumSpec v current := by
  show selectChecksum v current = checksumSpec v current
  cases harch : v.arch with
  | none => simp [selectChecksum, checksumSpec, harch]
  | some archMap =>
      cases hcur : archLookup archMap current with
      | some m => simp [selectChecksum, checksumSpec, harch, hcur]
      | none =>
          cases hany : archLookup archMap "any" with
          | some m => simp [selectChecksum, checksumSpec, harch, hcur, hany]
          | none => simp [selectChecksum, checksumSpec, harch, hcur, hany]

/-- Claim C7: building the download options is deterministic and
idempotent, and the produced archive URL is exactly
`{baseURL}/{pluginID}/versions/{version}/download` with the constant
grafana.com base. -/
theorem buildDownloadOptions_idempotent_and_url (v : Version) (pluginID current : String) :
    buildDownloadOptions v pluginID current = buildDownloadOptions v pluginID current ∧
    (buildDownloadOptions v pluginID current).pluginZipURL =
      "https://grafana.com/api/plugins/" ++ pluginID ++ "/versions/" ++
        v.version ++ "/download" := by
  refine ⟨rfl, ?_⟩
  show grafanaComAPIRoot ++ "/" ++ pluginID ++ "/versions/" ++ v.version ++ "/download" = _
  rw [show grafanaComAPIRoot ++ "/" = "https://grafana.com/api/plugins/" by decide]

/-- Claim C8, counterexample: the error value delivered to the caller does
not reference the fallback version. Two catalogs with the same plugin id
but different latest-supported fallback versions produce literally equal
failures for the same absent requested version, so the failure cannot
reference the fallback; the fallback appears only in a debug log line. -/
theorem fallback_not_in_error_cex :
    selectVersion plugOne "9.9.9" "8.0" "linuxAmd64" =
      selectVersion plugOther "9.9.9" "8.0" "linuxAmd64" ∧
    latestSupportedVersion plugOne "linuxAmd64" ≠
      latestSupportedVersion plugOther "linuxAmd64" := by
  decide

/-- Claim C8 as amended: whenever a specifically requested version fails —
not found, or found but unsupported — while a latest-supported fallback
exists, the fallback version is referenced in the emitted debug log line,
while the error delivered to the caller carries only the plugin id, the
normalized requested version and the system info — no fallback. -/
theorem fallback_referenced_in_log_not_error :
    (∀ (p : Plugin) (req grafanaVersion current : String) (f : Version),
       latestSupportedVersion p current = some f →
       normalizeVersion req ≠ "" →
       p.versions.find? (fun v => v.version == normalizeVersion req) = none →
       selectVersionWithLog p req grafanaVersion current =
         (Except.error (RepoError.versionNotFound p.id (normalizeVersion req)
            ⟨grafanaVersion, current⟩),
          ["Requested plugin version " ++ p.id ++ " v" ++ normalizeVersion req ++
           " not found but potential fallback version \x27" ++ f.version ++
           "\x27 was found"])) ∧
    (∀ (p : Plugin) (req grafanaVersion current : String) (f e : Version),
       latestSupportedVersion p current = some f →
       normalizeVersion req ≠ "" →
       p.versions.find? (fun v => v.version == normalizeVersion req) = some e →
       supportsCurrentArch e current = false →
       selectVersionWithLog p req grafanaVersion current =
         (Except.error (RepoError.versionUnsupported p.id (normalizeVersion req)
            ⟨grafanaVersion, current⟩),
          ["Requested plugin version " ++ p.id ++ " v" ++ normalizeVersion req ++
           " is not supported on your system but potential fallback version \x27" ++
           f.version ++ "\x27 was found"])) := by
  constructor
  · intro p req grafanaVersion current f hlatest hne habsent
    simp [selectVersionWithLog, hlatest, hne, habsent]
  · intro p req grafanaVersion current f e hlatest hne hfound hsupp
    simp [selectVersionWithLog, hlatest, hne, hfound, hsupp]

/-- Witness for the amended C8, exercising both failure branches:
requesting `9.9.9` against the catalog with fallback `2.0` yields the
`VersionNotFound` error without the fallback and a debug log line quoting
the fallback; requesting the `winX64`-only `2.0` on `linuxAmd64` yields the
`VersionUnsupported` error without the fallback and a debug log line
quoting the fallback `1.0`. -/
theorem fallback_referenced_in_log_not_error_witness :
    (selectVersionWithLog plugOne "9.9.9" "8.0" "linuxAmd64" =
      (Except.error (RepoError.versionNotFound "plug" "9.9.9"
         ⟨"8.0", "linuxAmd64"⟩),
       ["Requested plugin version plug v9.9.9 not found but potential fallback version \x272.0\x27 was found"])) ∧
    (selectVersionWithLog plugWin "2.0" "8.0" "linuxAmd64" =
      (Except.error (RepoError.versionUnsupported "plug" "2.0"
         ⟨"8.0", "linuxAmd64"⟩),
       ["Requested plugin version plug v2.0 is not supported on your system but potential fallback version \x271.0\x27 was found"])) :=
  ⟨(fallback_referenced_in_log_not_error.1 plugOne "9.9.9" "8.0" "linuxAmd64"
      ⟨"2.0", some [("any", ⟨"c2"⟩)]⟩ (by decide) (by decide) (by decide)).trans
      (by decide),
   (fallback_referenced_in_log_not_error.2 plugWin "2.0" "8.0" "linuxAmd64"
      ⟨"1.0", some [("any", ⟨"c1"⟩)]⟩ ⟨"2.0", some [("winX64", ⟨"cw"⟩)]⟩
      (by decide) (by decide) (by decide) (by decide)).trans (by decide)⟩

/-- Claim C9: a present-but-empty platform map is unsupported on every
platform, unlike the absent map which is supported everywhere, and a
catalog whose entries all carry empty platform maps always resolves to
`VersionUnsupported`. -/
theorem emptyArchMap_never_supported :
    (∀ (current ver : String),
       supportsCurrentArch ⟨ver, some []⟩ current = false) ∧
    (∀ (current ver : String),
       supportsCurrentArch ⟨ver, none⟩ current = true) ∧
    (∀ (p : Plugin) (current : String),
       (∀ v ∈ p.versions, v.arch = some ([] : List (String × ArchMeta))) →
       ∀ req grafanaVersion,
         selectVersion p req grafanaVersion current =
           Except.error (RepoError.versionUnsupported p.id (normalizeVersion req)
             ⟨grafanaVersion, current⟩)) := by
  refine ⟨fun _ _ => rfl, fun _ _ => rfl, fun p current h req grafanaVersion => ?_⟩
  refine selectVersion_err_of_latest_none p req grafanaVersion current
    (latestSupportedVersion_eq_none p current (fun v hv => ?_))
  simp [supportsCurrentArch, h v hv]

/-- Witness for C9: a catalog whose only entry has an empty platform map
fails with `VersionUnsupported` even when that exact version is requested. -/
theorem emptyArchMap_never_supported_witness :
    selectVersion plugEmptyArch "1.0" "8.0" "linuxAmd64" =
      Except.error (RepoError.versionUnsupported "plug" "1.0"
        ⟨"8.0", "linuxAmd64"⟩) :=
  emptyArchMap_never_supported.2.2 plugEmptyArch "linuxAmd64" (by decide)
    "1.0" "8.0"

/-- Claim C10, counterexample: a service configured with a repository URL
different from the constant grafana.com endpoint but on the same host
produces a metadata URL and a download URL with the same host, refuting
that every differing repository URL yields differing hosts. -/
theorem differing_repoURL_same_host_cex :
    (Service.mk "https://grafana.com/api/plugins-mirror").repoURL ≠
      grafanaComAPIRoot ∧
    urlHost ((Service.mk "https://grafana.com/api/plugins-mirror").metadataURL
        "plug") =
      urlHost ((buildDownloadOptions ⟨"1.0", none⟩ "plug"
        "linuxAmd64").pluginZipURL) := by
  decide

/-- Claim C10 as amended: the download URL is always rooted at the
compile-time grafana.com constant — its host is grafana.com for every
plugin id and version — and is entirely independent of the configured
repository URL, which only determines the metadata URL, whose host is the
repository URL host for every well-formed scheme-prefixed repository URL;
hence the metadata and download hosts differ for every such repository URL
whose host differs from grafana.com, but not for every different
repository URL, since a different one on the grafana.com host keeps the
hosts equal. -/
theorem downloadURL_fixed_root_metadata_from_repoURL :
    (∀ (s1 s2 : Service) (plugin : Plugin)
       (pluginID req grafanaVersion current : String),
       s1.getDownloadOptions plugin pluginID req grafanaVersion current =
         s2.getDownloadOptions plugin pluginID req grafanaVersion current) ∧
    (∀ (v : Version) (pluginID current : String),
       (∃ rest, (buildDownloadOptions v pluginID current).pluginZipURL =
          grafanaComAPIRoot ++ rest) ∧
       urlHost ((buildDownloadOptions v pluginID current).pluginZipURL) =
         "grafana.com") ∧
    (∀ (s : Service) (pluginID : String) (rest : List Char),
       s.repoURL.data.dropWhile (fun c => c != ':') = ':' :: '/' :: '/' :: rest →
       urlHost (s.metadataURL pluginID) = urlHost s.repoURL) ∧
    (∀ (s : Service) (pluginID current : String) (v : Version) (rest : List Char),
       s.repoURL.data.dropWhile (fun c => c != ':') = ':' :: '/' :: '/' :: rest →
       urlHost s.repoURL ≠ "grafana.com" →
       urlHost (s.metadataURL pluginID) ≠
         urlHost ((buildDownloadOptions v pluginID current).pluginZipURL)) := by
  have hurl : ∀ (v : Version) (pluginID current : String),
      (buildDownloadOptions v pluginID current).pluginZipURL =
        grafanaComAPIRoot ++
          ("/" ++ (pluginID ++ ("/versions/" ++ (v.version ++ "/download")))) := by
    intro v pluginID current
    show grafanaComAPIRoot ++ "/" ++ pluginID ++ "/versions/" ++ v.version ++
      "/download" = _
    simp [String.append_assoc]
  have hmeta : ∀ (s : Service) (pluginID : String) (rest : List Char),
      s.repoURL.data.dropWhile (fun c => c != ':') = ':' :: '/' :: '/' :: rest →
      urlHost (s.metadataURL pluginID) = urlHost s.repoURL := by
    intro s pluginID rest hbase
    have hm : s.metadataURL pluginID = s.repoURL ++ ("/repo/" ++ pluginID) := by
      show s.repoURL ++ "/repo/" ++ pluginID = _
      rw [String.append_assoc]
    rw [hm]
    exact urlHost_append_of_scheme s.repoURL ("/repo/" ++ pluginID) rest hbase rfl
  refine ⟨fun _ _ _ _ _ _ _ => rfl, fun v pluginID current => ?_, hmeta,
    fun s pluginID current v rest hbase hne => ?_⟩
  · refine ⟨⟨"/" ++ (pluginID ++ ("/versions/" ++ (v.version ++ "/download"))),
      hurl v pluginID current⟩, ?_⟩
    rw [hurl v pluginID current, urlHost_root_append]
  · rw [hmeta s pluginID rest hbase, hurl v pluginID current, urlHost_root_append]
    exact hne

/-- Witness for the amended C10: a service configured with the repository
URL `https://example.com/api/plugins` has metadata host `example.com`,
different from the grafana.com host of the download URL. -/
theorem downloadURL_fixed_root_metadata_from_repoURL_witness :
    urlHost ((Service.mk "https://example.com/api/plugins").metadataURL
        "plug") ≠
      urlHost ((buildDownloadOptions ⟨"1.0", none⟩ "plug"
        "linuxAmd64").pluginZipURL) :=
  downloadURL_fixed_root_metadata_from_repoURL.2.2.2
    (Service.mk "https://example.com/api/plugins") "plug" "linuxAmd64"
    ⟨"1.0", none⟩ ("example.com/api/plugins".data) (by decide) (by decide)

end PluginRepo
